import Mathlib

/-!
Verification development for the airq-app air-quality forecasting prototype.

The definitions below are a shallow embedding of the Python sources:
  * `backend/app/main.py`   — the `/api/predict` handlers (recursive forecast
    loop), `/api/predict_by_city` (city fan-out), route registration;
  * `backend/app/model_utils.py` — `build_features_for_station`;
  * `train/train_xgb.py`    — the training feature-column order.

Python floats are modelled by `ℚ` (arithmetic is exact; the spec states the
numeric recurrences "exact to floating-point tolerance").  Timestamps are
modelled as hours since the epoch (`ℕ`).  A pandas cell that may hold NaN is
modelled by `Option ℚ` with `none` standing for NaN.
-/

namespace AirQ

/-- One row of the processed CSV (`india_realtime_api.csv`): columns
`station_id`, `station_name`/`city`/`country` (only `city` is read by the
code modelled here), `datetime_utc` (hours since epoch; `read_csv` with
`parse_dates` always yields a valid timestamp), `pm25`, `lat`, `lon`
(numeric cells, `none` = NaN). -/
structure Record where
  station_id : String
  city : String
  datetime_utc : ℕ
  pm25 : Option ℚ
  lat : Option ℚ
  lon : Option ℚ
  deriving DecidableEq

/-- The single-row feature DataFrame flowing through the forecast loop of
`main.py` (`predict`).  `lag k` is column `lag_k` (meaningful for
`k = 1..24`); `hour` is the `hour` cell, `Option ℤ` because
`int(cur["hour"].iloc[0])` (main.py line 122) raises on a NaN cell — `none`
models such a cell; `build_features_for_station` always stores an integer
there (model_utils.py lines 55-61). -/
structure FeatureRow where
  lag : ℕ → ℚ
  rolling_24_mean : ℚ
  hour : Option ℤ
  dayofweek : ℤ
  lat : ℚ
  lon : ℚ

/-- `pred = max(pred, 0.0); pred = min(pred, 1000.0)` (main.py lines 112-113). -/
def clamp (x : ℚ) : ℚ := min (max x 0) 1000

/-- Assignment to a single lag column of the working row. -/
def updateLag (f : ℕ → ℚ) (k : ℕ) (v : ℚ) : ℕ → ℚ :=
  fun j => if j = k then v else f j

/-- The in-place lag-shift loop `for lag in range(24, 1, -1):
cur[f"lag_{lag}"] = cur[f"lag_{lag-1}"]` (main.py lines 116-117), counting
down from `n` to `2`; each write happens before the next (smaller) index is
visited, exactly as in the source. -/
def lagShiftDown (f : ℕ → ℚ) : ℕ → (ℕ → ℚ)
  | 0 => f
  | 1 => f
  | n + 2 => lagShiftDown (updateLag f (n + 2) (f (n + 1))) (n + 1)

/-- `current_hour = int(cur["hour"].iloc[0])` with the `except` branch
substituting `datetime.utcnow().hour` (main.py lines 121-124). -/
def readHour (cur : FeatureRow) (wallClockHour : ℤ) : ℤ :=
  match cur.hour with
  | some h => h
  | none => wallClockHour

/-- One iteration body of the forecast loop after the prediction has been
clamped and appended (main.py lines 116-125): lag shift, `lag_1 := pred`,
rolling-mean recurrence, hour advance. -/
def forecastStep (cur : FeatureRow) (pred : ℚ) (wallClockHour : ℤ) : FeatureRow where
  lag := updateLag (lagShiftDown cur.lag 24) 1 pred
  rolling_24_mean := (cur.rolling_24_mean * 23 + pred) / 24
  hour := some ((readHour cur wallClockHour + 1) % 24)
  dayofweek := cur.dayofweek
  lat := cur.lat
  lon := cur.lon

/-- The loop `for i in range(horizon)` of `predict` (main.py lines 110-125):
returns the accumulated `preds` list and the final working row.  `wall j` is
the wall-clock UTC hour during step `j` (only read if the `hour` cell is
NaN). -/
def forecastLoop (model : FeatureRow → ℚ) (wall : ℕ → ℤ) :
    ℕ → FeatureRow → List ℚ × FeatureRow
  | 0, cur => ([], cur)
  | n + 1, cur =>
      let rest := forecastLoop model (fun j => wall (j + 1)) n
        (forecastStep cur (clamp (model cur)) (wall 0))
      (clamp (model cur) :: rest.1, rest.2)

/-- The list of argument rows passed to `model.predict` by `forecastLoop`,
one per iteration (main.py line 111), in order. -/
def forecastCalls (model : FeatureRow → ℚ) (wall : ℕ → ℤ) :
    ℕ → FeatureRow → List FeatureRow
  | 0, _ => []
  | n + 1, cur =>
      cur :: forecastCalls model (fun j => wall (j + 1)) n
        (forecastStep cur (clamp (model cur)) (wall 0))

/-- The working row after `n` iterations of the forecast loop. -/
def stateAfter (model : FeatureRow → ℚ) (wall : ℕ → ℤ) :
    ℕ → FeatureRow → FeatureRow
  | 0, cur => cur
  | n + 1, cur =>
      stateAfter model (fun j => wall (j + 1)) n
        (forecastStep cur (clamp (model cur)) (wall 0))

/-- Overwrite the `lag_24` column (used to express that its old value is
discarded by a step). -/
def setLag24 (cur : FeatureRow) (v : ℚ) : FeatureRow :=
  { cur with lag := updateLag cur.lag 24 v }

theorem lagShiftDown_eq : ∀ (n : ℕ) (f : ℕ → ℚ) (j : ℕ),
    lagShiftDown f n j = if 2 ≤ j ∧ j ≤ n then f (j - 1) else f j
  | 0, f, j => by
      rw [lagShiftDown, if_neg (by omega)]
  | 1, f, j => by
      rw [lagShiftDown, if_neg (by omega)]
  | n + 2, f, j => by
      rw [lagShiftDown, lagShiftDown_eq (n + 1)]
      by_cases h1 : 2 ≤ j ∧ j ≤ n + 1
      · rw [if_pos h1, if_pos (by omega)]
        unfold updateLag
        rw [if_neg (by omega)]
      · by_cases h2 : j = n + 2
        · subst h2
          rw [if_neg h1, if_pos (by omega)]
          unfold updateLag
          rw [if_pos rfl]
          congr 1
        · rw [if_neg h1, if_neg (by omega)]
          unfold updateLag
          rw [if_neg h2]

theorem stateAfter_succ (m : FeatureRow → ℚ) : ∀ (n : ℕ) (w : ℕ → ℤ) (cur : FeatureRow),
    stateAfter m w (n + 1) cur
      = forecastStep (stateAfter m w n cur) (clamp (m (stateAfter m w n cur))) (w n)
  | 0, _, _ => rfl
  | n + 1, w, cur =>
      stateAfter_succ m n (fun j => w (j + 1))
        (forecastStep cur (clamp (m cur)) (w 0))

theorem forecastLoop_snd (m : FeatureRow → ℚ) : ∀ (n : ℕ) (w : ℕ → ℤ) (cur : FeatureRow),
    (forecastLoop m w n cur).2 = stateAfter m w n cur
  | 0, _, _ => rfl
  | n + 1, w, cur => by
      have ih := forecastLoop_snd m n (fun j => w (j + 1))
        (forecastStep cur (clamp (m cur)) (w 0))
      simpa [forecastLoop, stateAfter] using ih

theorem forecastLoop_length (m : FeatureRow → ℚ) : ∀ (n : ℕ) (w : ℕ → ℤ) (cur : FeatureRow),
    (forecastLoop m w n cur).1.length = n
  | 0, _, _ => rfl
  | n + 1, w, cur => by
      have ih := forecastLoop_length m n (fun j => w (j + 1))
        (forecastStep cur (clamp (m cur)) (w 0))
      simp [forecastLoop, ih]

theorem forecastLoop_eq_calls_map (m : FeatureRow → ℚ) :
    ∀ (n : ℕ) (w : ℕ → ℤ) (cur : FeatureRow),
    (forecastLoop m w n cur).1 = (forecastCalls m w n cur).map (fun r => clamp (m r))
  | 0, _, _ => rfl
  | n + 1, w, cur => by
      have ih := forecastLoop_eq_calls_map m n (fun j => w (j + 1))
        (forecastStep cur (clamp (m cur)) (w 0))
      simp [forecastLoop, forecastCalls, ih]

theorem forecastCalls_length (m : FeatureRow → ℚ) : ∀ (n : ℕ) (w : ℕ → ℤ) (cur : FeatureRow),
    (forecastCalls m w n cur).length = n
  | 0, _, _ => rfl
  | n + 1, w, cur => by
      have ih := forecastCalls_length m n (fun j => w (j + 1))
        (forecastStep cur (clamp (m cur)) (w 0))
      simp [forecastCalls, ih]

theorem forecastLoop_getD (m : FeatureRow → ℚ) :
    ∀ (n : ℕ) (w : ℕ → ℤ) (cur : FeatureRow) (i : ℕ), i < n →
    (forecastLoop m w n cur).1.getD i 0 = clamp (m (stateAfter m w i cur))
  | 0, _, _, _, h => absurd h (by omega)
  | n + 1, w, cur, 0, _ => rfl
  | n + 1, w, cur, i + 1, h => by
      have ih := forecastLoop_getD m n (fun j => w (j + 1))
        (forecastStep cur (clamp (m cur)) (w 0)) i (by omega)
      simpa [forecastLoop, stateAfter] using ih

theorem forecastStep_hour (cur : FeatureRow) (pred : ℚ) (wh : ℤ) (h : ℤ)
    (hh : cur.hour = some h) :
    (forecastStep cur pred wh).hour = some ((h + 1) % 24) := by
  simp [forecastStep, readHour, hh]

theorem stateAfter_hour (m : FeatureRow → ℚ) :
    ∀ (n : ℕ) (w : ℕ → ℤ) (cur : FeatureRow) (h : ℤ), cur.hour = some h →
    0 ≤ h → h < 24 → (stateAfter m w n cur).hour = some ((h + n) % 24)
  | 0, _, cur, h, hh, h0, h24 => by
      rw [stateAfter, hh]
      congr 1
      omega
  | n + 1, w, cur, h, hh, h0, h24 => by
      have hs : (forecastStep cur (clamp (m cur)) (w 0)).hour = some ((h + 1) % 24) :=
        forecastStep_hour cur (clamp (m cur)) (w 0) h hh
      have ih := stateAfter_hour m n (fun j => w (j + 1))
        (forecastStep cur (clamp (m cur)) (w 0)) ((h + 1) % 24) hs
        (Int.emod_nonneg _ (by norm_num)) (Int.emod_lt_of_pos _ (by norm_num))
      rw [stateAfter, ih]
      congr 1
      omega

theorem clamp_bounds (x : ℚ) : 0 ≤ clamp x ∧ clamp x ≤ 1000 :=
  ⟨le_min (le_max_right x 0) (by norm_num), min_le_right _ _⟩

theorem forecastLoop_mem_bounds (m : FeatureRow → ℚ) :
    ∀ (n : ℕ) (w : ℕ → ℤ) (cur : FeatureRow) (x : ℚ),
    x ∈ (forecastLoop m w n cur).1 → 0 ≤ x ∧ x ≤ 1000
  | 0, _, _, _, hx => absurd hx (by simp [forecastLoop])
  | n + 1, w, cur, x, hx => by
      rw [forecastLoop] at hx
      simp only [List.mem_cons] at hx
      rcases hx with hx | hx
      · subst hx
        exact clamp_bounds (m cur)
      · exact forecastLoop_mem_bounds m n (fun j => w (j + 1))
          (forecastStep cur (clamp (m cur)) (w 0)) x hx

theorem stateAfter_frame (m : FeatureRow → ℚ) :
    ∀ (n : ℕ) (w : ℕ → ℤ) (cur : FeatureRow),
    (stateAfter m w n cur).dayofweek = cur.dayofweek ∧
    (stateAfter m w n cur).lat = cur.lat ∧
    (stateAfter m w n cur).lon = cur.lon
  | 0, _, _ => ⟨rfl, rfl, rfl⟩
  | n + 1, w, cur => by
      have ih := stateAfter_frame m n (fun j => w (j + 1))
        (forecastStep cur (clamp (m cur)) (w 0))
      simpa [stateAfter, forecastStep] using ih

theorem forecastStep_lag_one (cur : FeatureRow) (pred : ℚ) (wh : ℤ) :
    (forecastStep cur pred wh).lag 1 = pred := by
  simp [forecastStep, updateLag]

theorem forecastStep_lag_shift (cur : FeatureRow) (pred : ℚ) (wh : ℤ)
    (k : ℕ) (hk2 : 2 ≤ k) (hk24 : k ≤ 24) :
    (forecastStep cur pred wh).lag k = cur.lag (k - 1) := by
  show updateLag (lagShiftDown cur.lag 24) 1 pred k = cur.lag (k - 1)
  unfold updateLag
  rw [if_neg (by omega), lagShiftDown_eq, if_pos ⟨hk2, hk24⟩]

/-- Claim C1: in every iteration of the recursive forecast loop, after the
lag-shift step the new `lag_1` equals the just-produced clamped prediction
(the value appended to the output at that step), for every `k` in `2..24`
the new `lag_k` equals the value `lag_{k-1}` held before the step, and the
old `lag_24` value is discarded (overwriting it with any value `v` before
the step leaves the stepped row's lags unchanged). -/
theorem C1_lag_shift (m : FeatureRow → ℚ) (w : ℕ → ℤ) (cur : FeatureRow)
    (H i k : ℕ) (hiH : i < H) (hk2 : 2 ≤ k) (hk24 : k ≤ 24) :
    (stateAfter m w (i + 1) cur).lag 1 = (forecastLoop m w H cur).1.getD i 0 ∧
    (stateAfter m w (i + 1) cur).lag k = (stateAfter m w i cur).lag (k - 1) ∧
    (∀ v : ℚ,
      (forecastStep (setLag24 (stateAfter m w i cur) v)
          ((forecastLoop m w H cur).1.getD i 0) (w i)).lag k
        = (stateAfter m w (i + 1) cur).lag k) := by
  rw [forecastLoop_getD m H w cur i hiH, stateAfter_succ]
  refine ⟨forecastStep_lag_one _ _ _, forecastStep_lag_shift _ _ _ k hk2 hk24, ?_⟩
  intro v
  rw [forecastStep_lag_shift _ _ _ k hk2 hk24, forecastStep_lag_shift _ _ _ k hk2 hk24]
  show updateLag (stateAfter m w i cur).lag 24 v (k - 1) = (stateAfter m w i cur).lag (k - 1)
  unfold updateLag
  rw [if_neg (by omega)]

/-- Claim C2: in every iteration of the recursive forecast loop, the
`rolling_24_mean` field after the step equals
`(rolling_24_mean before the step * 23 + clamped prediction) / 24`, where
the clamped prediction is the value appended to the output in that step. -/
theorem C2_rolling_mean (m : FeatureRow → ℚ) (w : ℕ → ℤ) (cur : FeatureRow)
    (H i : ℕ) (hiH : i < H) :
    (stateAfter m w (i + 1) cur).rolling_24_mean
      = ((stateAfter m w i cur).rolling_24_mean * 23
          + (forecastLoop m w H cur).1.getD i 0) / 24 := by
  rw [forecastLoop_getD m H w cur i hiH, stateAfter_succ]
  rfl

/-- Claim C3: for every feature row, every prediction function and every
horizon `H` in `[1, 168]`, the forecast loop produces an output sequence of
length exactly `H` and invokes the prediction function exactly `H` times
(one call per output element, with no early stopping). -/
theorem C3_horizon_length (m : FeatureRow → ℚ) (w : ℕ → ℤ) (cur : FeatureRow)
    (H : ℕ) (_h1 : 1 ≤ H) (_h168 : H ≤ 168) :
    (forecastLoop m w H cur).1.length = H ∧
    (forecastCalls m w H cur).length = H ∧
    (forecastLoop m w H cur).1 = (forecastCalls m w H cur).map (fun r => clamp (m r)) :=
  ⟨forecastLoop_length m H w cur, forecastCalls_length m H w cur,
    forecastLoop_eq_calls_map m H w cur⟩

/-- Claim C4: every element of the prediction sequence produced by the
forecast loop lies in `[0, 1000]`, for every prediction function, including
ones returning values outside that range. -/
theorem C4_clamped (m : FeatureRow → ℚ) (w : ℕ → ℤ) (cur : FeatureRow)
    (H : ℕ) (x : ℚ) (hx : x ∈ (forecastLoop m w H cur).1) :
    0 ≤ x ∧ x ≤ 1000 :=
  forecastLoop_mem_bounds m H w cur x hx

/-- Claim C5: each step of the forecast loop replaces the hour field `h` by
`(h + 1) mod 24`; consequently for every starting hour in `[0, 24)` the hour
field returns to its initial value after exactly 24 steps. -/
theorem C5_hour_advance (m : FeatureRow → ℚ) (w : ℕ → ℤ) (cur : FeatureRow)
    (h : ℤ) (hh : cur.hour = some h) :
    (∀ (pred : ℚ) (wh : ℤ), (forecastStep cur pred wh).hour = some ((h + 1) % 24)) ∧
    (0 ≤ h → h < 24 → (stateAfter m w 24 cur).hour = some h) := by
  refine ⟨fun pred wh => forecastStep_hour cur pred wh h hh, fun h0 h24 => ?_⟩
  rw [stateAfter_hour m 24 w cur h hh h0 h24]
  congr 1
  omega

/-- Claim C6: across every iteration of the forecast loop the `dayofweek`,
`lat` and `lon` fields of the working feature row keep their initial
values; only the lags, `rolling_24_mean` and `hour` are modified. -/
theorem C6_frame (m : FeatureRow → ℚ) (w : ℕ → ℤ) (cur : FeatureRow) (n : ℕ) :
    (stateAfter m w n cur).dayofweek = cur.dayofweek ∧
    (stateAfter m w n cur).lat = cur.lat ∧
    (stateAfter m w n cur).lon = cur.lon :=
  stateAfter_frame m n w cur

/-- A concrete feature row used by the witnesses. -/
def rowEx : FeatureRow where
  lag := fun k => (k : ℚ)
  rolling_24_mean := 50
  hour := some 10
  dayofweek := 2
  lat := 28
  lon := 77

/-- A concrete constant prediction function. -/
def mEx : FeatureRow → ℚ := fun _ => 55

/-- A prediction function returning an out-of-range value. -/
def mBig : FeatureRow → ℚ := fun _ => 2000

/-- A concrete wall-clock sequence. -/
def wEx : ℕ → ℤ := fun _ => 7

theorem C1_lag_shift_witness :
    (0 < 3 ∧ 2 ≤ 2 ∧ 2 ≤ 24) ∧
    (stateAfter mEx wEx 1 rowEx).lag 2 = (stateAfter mEx wEx 0 rowEx).lag 1 :=
  ⟨⟨by decide, by decide, by decide⟩,
    (C1_lag_shift mEx wEx rowEx 3 0 2 (by decide) (by decide) (by decide)).2.1⟩

theorem C2_rolling_mean_witness :
    0 < 3 ∧
    (stateAfter mEx wEx 1 rowEx).rolling_24_mean
      = ((stateAfter mEx wEx 0 rowEx).rolling_24_mean * 23
          + (forecastLoop mEx wEx 3 rowEx).1.getD 0 0) / 24 :=
  ⟨by decide, C2_rolling_mean mEx wEx rowEx 3 0 (by decide)⟩

theorem C3_horizon_length_witness :
    (1 ≤ 24 ∧ 24 ≤ 168) ∧ (forecastLoop mEx wEx 24 rowEx).1.length = 24 :=
  ⟨⟨by decide, by decide⟩,
    (C3_horizon_length mEx wEx rowEx 24 (by decide) (by decide)).1⟩

theorem C4_clamped_witness :
    (1000 : ℚ) ∈ (forecastLoop mBig wEx 1 rowEx).1 ∧
    (0 ≤ (1000 : ℚ) ∧ (1000 : ℚ) ≤ 1000) :=
  ⟨by decide, C4_clamped mBig wEx rowEx 1 1000 (by decide)⟩

/-- A concrete feature row whose hour field is 23 (the wraparound boundary). -/
def rowEx23 : FeatureRow := { rowEx with hour := some 23 }

theorem C5_hour_advance_witness :
    rowEx23.hour = some 23 ∧
    (forecastStep rowEx23 55 0).hour = some 0 ∧
    (stateAfter mEx wEx 24 rowEx23).hour = some 23 := by
  have h := C5_hour_advance mEx wEx rowEx23 23 rfl
  refine ⟨rfl, ?_, h.2 (by decide) (by decide)⟩
  have h1 := h.1 55 0
  norm_num at h1
  exact h1

/-- pandas NaN-skipping mean: the mean of the non-NaN entries of a column
slice, NaN (`none`) if there are none. -/
def meanOpt (l : List ℚ) : Option ℚ :=
  if l.length = 0 then none else some (l.sum / (l.length : ℚ))

/-- Value of a numeric column at hour bucket `t` after
`.resample("h").mean(numeric_only=True)` (model_utils.py line 34): the
NaN-skipping mean of the rows falling in that hour; an hour with no rows
yields NaN. -/
def bucketMean (rows : List Record) (proj : Record → Option ℚ) (t : ℕ) : Option ℚ :=
  meanOpt ((rows.filter (fun r => r.datetime_utc == t)).filterMap proj)

/-- `.ffill()`: forward-fill NaN cells with the previous non-NaN value
(cells before the first non-NaN one stay NaN). -/
def ffillCol : Option ℚ → List (Option ℚ) → List (Option ℚ)
  | _, [] => []
  | prev, none :: rest => prev :: ffillCol prev rest
  | _, some v :: rest => some v :: ffillCol (some v) rest

/-- The hourly index `lo, lo + 1, ..., hi` produced by resampling. -/
def hoursRange (lo hi : ℕ) : List ℕ :=
  (List.range (hi + 1 - lo)).map (fun i => lo + i)

/-- One numeric column of
`df.set_index("datetime_utc").resample("h").mean(numeric_only=True).ffill()`. -/
def resampledCol (rows : List Record) (proj : Record → Option ℚ) (lo hi : ℕ) :
    List (Option ℚ) :=
  ffillCol none ((hoursRange lo hi).map (bucketMean rows proj))

/-- `df["pm25"].shift(k)` evaluated at the last row (`df.iloc[-1]`). -/
def lastLag (series : List (Option ℚ)) (k : ℕ) : Option ℚ :=
  if k < series.length then (series.get? (series.length - 1 - k)).join else none

/-- `df["pm25"].rolling(24, min_periods=1).mean()` evaluated at the last
row: NaN-skipping mean over the trailing window of up to 24 cells. -/
def lastRolling (series : List (Option ℚ)) : Option ℚ :=
  meanOpt ((series.drop (series.length - 24)).filterMap id)

/-- The default-to-zero policy `float(v) if not pd.isna(v) else 0.0`
(model_utils.py lines 49-52, 64-65). -/
def coalesce (x : Option ℚ) : ℚ := x.getD 0

/-- `build_features_for_station` (model_utils.py lines 21-67): filter the
processed CSV to the station (`None` if no rows), resample the station's
series to exact hourly cadence with forward fill, and evaluate
`lag_1..lag_{max_lag}`, `rolling_24_mean`, `hour`, `dayofweek`, `lat`,
`lon` at the chronologically last row, coalescing NaN to 0.  The resampled
index runs from the earliest to the latest observed hour, so the last row's
timestamp is the station's maximum `datetime_utc`; its hour of day is
`ts % 24` and its day of week (Monday = 0, epoch hour 0 falling on a
Thursday) is `(ts / 24 + 3) % 7`, always stored as integers. -/
def build_features_for_station (data : List Record) (station_id : String)
    (max_lag : ℕ) : Option FeatureRow :=
  let df := data.filter (fun r => r.station_id == station_id)
  match (df.map (fun r => r.datetime_utc)).min?,
      (df.map (fun r => r.datetime_utc)).max? with
  | some lo, some hi =>
      let pm := resampledCol df (fun r => r.pm25) lo hi
      some
        { lag := fun k => if 1 ≤ k ∧ k ≤ max_lag then coalesce (lastLag pm k) else 0
          rolling_24_mean := coalesce (lastRolling pm)
          hour := some ((hi : ℤ) % 24)
          dayofweek := ((hi : ℤ) / 24 + 3) % 7
          lat := coalesce ((resampledCol df (fun r => r.lat) lo hi).getLast?.join)
          lon := coalesce ((resampledCol df (fun r => r.lon) lo hi).getLast?.join) }
  | _, _ => none

/-- The insertion order of the feature dict built by
`build_features_for_station` (model_utils.py lines 47-65): `lag_k` for the
loop `for lag in range(1, max_lag + 1)`, then `rolling_24_mean`, `hour`,
`dayofweek`, `lat`, `lon`; a Python dict preserves insertion order, which
is the column order of the returned one-row DataFrame. -/
def build_features_field_order (max_lag : ℕ) : List String :=
  ((List.range' 1 max_lag).map (fun i => "lag_" ++ toString i)) ++
    ["rolling_24_mean", "hour", "dayofweek", "lat", "lon"]

/-- `feature_cols` (train_xgb.py line 33):
`[f"lag_{i}" for i in range(1, 25)] + ["rolling_24_mean", "hour",
"dayofweek", "lat", "lon"]`. -/
def feature_cols : List String :=
  ((List.range' 1 24).map (fun i => "lag_" ++ toString i)) ++
    ["rolling_24_mean", "hour", "dayofweek", "lat", "lon"]

/-- Claim C7: the field order of the single feature row returned by
`build_features_for_station` (called with `max_lag = 24` by the handlers) —
`lag_1..lag_24` in increasing order, then `rolling_24_mean`, `hour`,
`dayofweek`, `lat`, `lon` — is identical to the training-time feature
column order `feature_cols` of train_xgb.py, a 29-entry vector. -/
theorem C7_feature_order :
    build_features_field_order 24 = feature_cols ∧ feature_cols.length = 29 := by
  constructor <;> rfl

/-- One element of the `predictions` list: the derived timestamp (hours
since epoch; the ISO-8601 rendering is presentation only) and the predicted
pm25 (main.py line 135). -/
structure ForecastPoint where
  timestamp : ℕ
  pm25 : ℚ
  deriving DecidableEq

/-- Return value of the first `/api/predict` handler (main.py lines
137-141): `{station_id, last_updated, predictions}`. -/
structure PredictResponseA where
  station_id : String
  last_updated : ℕ
  predictions : List ForecastPoint
  deriving DecidableEq

/-- Return value of the second `/api/predict` handler (main.py line 194):
`{station_id, predictions}` — it omits `last_updated`. -/
structure PredictResponseB where
  station_id : String
  predictions : List ForecastPoint
  deriving DecidableEq

/-- The `HTTPException`s raised by the handlers. -/
inductive HTTPError where
  | notFound (detail : String)
  | serverError (detail : String)
  deriving DecidableEq

/-- `df_all[df_all["station_id"] == station_id]["datetime_utc"].max()`
(main.py line 128); `none` models NaT (station has no rows). -/
def lastObservation (data : List Record) (station_id : String) : Option ℕ :=
  ((data.filter (fun r => r.station_id == station_id)).map
    (fun r => r.datetime_utc)).max?

/-- The first `@app.get("/api/predict")` handler (main.py lines 88-141).
`csvExists` models `os.path.exists(PROCESSED_CSV)`, `modelOpt` the result
of `load_model()` (`none` = file missing), `wall` the wall-clock hour
sequence read only on a NaN hour cell, `nowTs` the `datetime.utcnow()`
fallback used only when the station has no last timestamp. -/
def predictFirstHandler (csvExists : Bool) (data : List Record)
    (modelOpt : Option (FeatureRow → ℚ)) (wall : ℕ → ℤ)
    (station_id : String) (horizon : ℕ) (nowTs : ℕ) :
    Except HTTPError PredictResponseA :=
  if !csvExists then
    .error (.serverError "Processed CSV not found")
  else
    match modelOpt with
    | none => .error (.serverError "Model not found")
    | some model =>
        match build_features_for_station data station_id 24 with
        | none => .error (.notFound "station_id not found in processed data")
        | some features =>
            let preds := (forecastLoop model wall horizon features).1
            let last_ts := (lastObservation data station_id).getD nowTs
            let timestamps := (List.range horizon).map (fun i => last_ts + (i + 1))
            let output := (timestamps.zip preds).map
              (fun tp => ({ timestamp := tp.1, pm25 := tp.2 } : ForecastPoint))
            .ok { station_id := station_id, last_updated := last_ts,
                  predictions := output }

/-- The second `@app.get("/api/predict")` handler (main.py lines 145-194):
same computation, but the returned object has no `last_updated` field. -/
def predictSecondHandler (csvExists : Bool) (data : List Record)
    (modelOpt : Option (FeatureRow → ℚ)) (wall : ℕ → ℤ)
    (station_id : String) (horizon : ℕ) (nowTs : ℕ) :
    Except HTTPError PredictResponseB :=
  if !csvExists then
    .error (.serverError "Processed CSV not found")
  else
    match modelOpt with
    | none => .error (.serverError "Model not found")
    | some model =>
        match build_features_for_station data station_id 24 with
        | none => .error (.notFound "station_id not found in processed data")
        | some features =>
            let preds := (forecastLoop model wall horizon features).1
            let last_ts := (lastObservation data station_id).getD nowTs
            let timestamps := (List.range horizon).map (fun i => last_ts + (i + 1))
            let output := (timestamps.zip preds).map
              (fun tp => ({ timestamp := tp.1, pm25 := tp.2 } : ForecastPoint))
            .ok { station_id := station_id, predictions := output }

/-- The handlers registered on the FastAPI app, in registration order
(main.py lines 65, 70, 88, 145, 197, 232); both `/api/predict` decorators
register a route on the same path. -/
inductive HandlerId where
  | health
  | stations
  | predictFirst
  | predictSecond
  | predictByCity
  | refresh
  deriving DecidableEq

def routeTable : List (String × HandlerId) :=
  [("/api/health", .health), ("/api/stations", .stations),
   ("/api/predict", .predictFirst), ("/api/predict", .predictSecond),
   ("/api/predict_by_city", .predictByCity), ("/api/refresh", .refresh)]

/-- Starlette route resolution (a modelled framework dependency): the
registered routes are tried in registration order and the first full match
handles the request, so of two routes on the same path the
first-registered one is the behaviorally operative handler for HTTP
requests. -/
def resolveRoute (path : String) : Option HandlerId :=
  (routeTable.find? (fun r => r.1 == path)).map (fun r => r.2)

theorem build_features_cases (data : List Record) (sid : String) (ml : ℕ)
    (fr : FeatureRow) (hb : build_features_for_station data sid ml = some fr) :
    ∃ hi : ℕ, lastObservation data sid = some hi ∧ fr.hour = some ((hi : ℤ) % 24) := by
  simp only [build_features_for_station] at hb
  split at hb
  · next lo hi _ hmax =>
      injection hb with hb
      subst hb
      exact ⟨hi, hmax, rfl⟩
  · exact absurd hb (by simp)

/-- Claim C8: for a known station with dataset and model present, the GET
`/api/predict` operation — served by the behaviorally operative of the two
duplicate handler registrations, which under first-match routing is the
first one — returns an object containing `station_id`, `last_updated`
equal to the timestamp of the station's last known observation, and the
`predictions` list (one entry per horizon step). -/
theorem C8_predict_response (data : List Record) (m : FeatureRow → ℚ)
    (w : ℕ → ℤ) (sid : String) (H now : ℕ) (fr : FeatureRow)
    (hb : build_features_for_station data sid 24 = some fr) :
    resolveRoute "/api/predict" = some HandlerId.predictFirst ∧
    ∃ (t : ℕ) (resp : PredictResponseA),
      lastObservation data sid = some t ∧
      predictFirstHandler true data (some m) w sid H now = .ok resp ∧
      resp.station_id = sid ∧
      resp.last_updated = t ∧
      resp.predictions.length = H := by
  obtain ⟨hi, hmax, _⟩ := build_features_cases data sid 24 fr hb
  refine ⟨rfl, hi,
    ⟨sid, hi, (((List.range H).map (fun i => hi + (i + 1))).zip
        ((forecastLoop m w H fr).1)).map
          (fun tp => ({ timestamp := tp.1, pm25 := tp.2 } : ForecastPoint))⟩,
    hmax, ?_, rfl, rfl, ?_⟩
  · simp [predictFirstHandler, hb, hmax]
  · simp [List.length_zip, forecastLoop_length]

/-- Python `str.lower()`: lower each character (character-list form of
`String.toLower`). -/
def lowerStr (s : String) : String := ⟨s.data.map Char.toLower⟩

/-- `df[df["city"].str.lower() == city.lower()]` (main.py line 206). -/
def cityMatches (data : List Record) (city : String) : List Record :=
  data.filter (fun r => lowerStr r.city == lowerStr city)

/-- `matches["station_id"].unique()` (main.py line 211): the distinct
station ids in first-occurrence order. -/
def uniqueFirstAux (seen : List String) : List String → List String
  | [] => []
  | x :: xs =>
      if x ∈ seen then uniqueFirstAux seen xs
      else x :: uniqueFirstAux (x :: seen) xs

def cityStationIds (data : List Record) (city : String) : List String :=
  uniqueFirstAux [] ((cityMatches data city).map (fun r => r.station_id))

/-- One entry of the `stations` list of `/api/predict_by_city`: a
successful per-station predict result, or the inline `{station_id, error}`
descriptor appended by the `except` branch (main.py lines 213-218). -/
inductive CityStationEntry where
  | success (resp : PredictResponseB)
  | failure (station_id : String) (error : String)
  deriving DecidableEq

structure CityResponse where
  city : String
  last_updated : ℕ
  stations : List CityStationEntry
  deriving DecidableEq

/-- The `@app.get("/api/predict_by_city")` handler (main.py lines 197-228).
`p` models the per-station `predict(sid, horizon)` call — the module-level
name `predict` is bound to the second handler definition — returning either
the per-station response or the raised exception rendered with `str(e)`;
the surrounding `try`/`except Exception` appends an error entry instead of
propagating. -/
def predict_by_city (csvExists : Bool) (data : List Record)
    (p : String → Except String PredictResponseB) (city : String) (now : ℕ) :
    Except HTTPError CityResponse :=
  if !csvExists then
    .error (.serverError "Processed CSV not found")
  else if cityMatches data city = [] then
    .error (.notFound "City not found in processed data")
  else
    .ok
      { city := city
        last_updated := (((cityMatches data city).map
          (fun r => r.datetime_utc)).max?).getD now
        stations := (cityStationIds data city).map (fun sid =>
          match p sid with
          | .ok r => .success r
          | .error e => .failure sid e) }

/-- Claim C9: in the city fan-out of `predict_by_city`, for every matching
city and every set of stations, a failure raised while forecasting one
station never aborts the request: the handler still returns a response
whose `stations` list has one entry per distinct station, where each
failing station contributes an inline `{station_id, error}` entry and each
non-failing station contributes its successful per-station result. -/
theorem C9_city_fanout (data : List Record)
    (p : String → Except String PredictResponseB) (city : String) (now : ℕ)
    (hm : cityMatches data city ≠ []) :
    ∃ resp, predict_by_city true data p city now = .ok resp ∧
      resp.stations.length = (cityStationIds data city).length ∧
      ∀ i, i < (cityStationIds data city).length →
        ((∃ r, p ((cityStationIds data city).getD i "") = .ok r ∧
            resp.stations.getD i (.failure "" "") = .success r) ∨
         (∃ e, p ((cityStationIds data city).getD i "") = .error e ∧
            resp.stations.getD i (.failure "" "") =
              .failure ((cityStationIds data city).getD i "") e)) := by
  refine ⟨{ city := city
            last_updated := (((cityMatches data city).map
              (fun r => r.datetime_utc)).max?).getD now
            stations := (cityStationIds data city).map (fun sid =>
              match p sid with
              | .ok r => .success r
              | .error e => .failure sid e) }, ?_, ?_, ?_⟩
  · rw [predict_by_city]
    simp only [Bool.not_true]
    rw [if_neg (by simp), if_neg hm]
  · exact List.length_map _ _
  · intro i hi
    have hgl : ((cityStationIds data city).map (fun sid =>
        match p sid with
        | .ok r => CityStationEntry.success r
        | .error e => CityStationEntry.failure sid e)).getD i (.failure "" "")
        = (fun sid =>
            match p sid with
            | .ok r => CityStationEntry.success r
            | .error e => CityStationEntry.failure sid e)
          ((cityStationIds data city).getD i "") := by
      rw [List.getD_eq_getElem _ _ (by simpa using hi),
        List.getD_eq_getElem _ _ hi, List.getElem_map]
    rw [hgl]
    generalize (cityStationIds data city).getD i "" = sid
    cases hp : p sid with
    | ok r => exact Or.inl ⟨r, rfl, by simp [hp]⟩
    | error e => exact Or.inr ⟨e, rfl, by simp [hp]⟩

theorem forecastStep_wall_indep (cur : FeatureRow) (pred : ℚ) (wh wh2 : ℤ)
    (h : ℤ) (hh : cur.hour = some h) :
    forecastStep cur pred wh = forecastStep cur pred wh2 := by
  simp [forecastStep, readHour, hh]

theorem forecastLoop_wall_indep (m : FeatureRow → ℚ) :
    ∀ (n : ℕ) (w w2 : ℕ → ℤ) (cur : FeatureRow) (h : ℤ), cur.hour = some h →
    forecastLoop m w n cur = forecastLoop m w2 n cur
  | 0, _, _, _, _, _ => rfl
  | n + 1, w, w2, cur, h, hh => by
      have hstep : forecastStep cur (clamp (m cur)) (w 0)
          = forecastStep cur (clamp (m cur)) (w2 0) :=
        forecastStep_wall_indep cur (clamp (m cur)) (w 0) (w2 0) h hh
      have hnext : (forecastStep cur (clamp (m cur)) (w2 0)).hour
          = some ((h + 1) % 24) :=
        forecastStep_hour cur (clamp (m cur)) (w2 0) h hh
      have ih := forecastLoop_wall_indep m n (fun j => w (j + 1))
        (fun j => w2 (j + 1)) (forecastStep cur (clamp (m cur)) (w2 0))
        ((h + 1) % 24) hnext
      simp only [forecastLoop, hstep, ih]

/-- Claim C10: every feature row produced by `build_features_for_station`
has an integer (non-NaN) hour cell, so the `int(cur["hour"].iloc[0])` read
inside the forecast loop cannot fail: the `except` branch substituting the
wall-clock UTC hour is unreachable, and the loop's result never depends on
the wall-clock sequence. -/
theorem C10_hour_read_total (data : List Record) (sid : String)
    (fr : FeatureRow) (hb : build_features_for_station data sid 24 = some fr) :
    fr.hour ≠ none ∧
    (∀ wh wh2 : ℤ, readHour fr wh = readHour fr wh2) ∧
    (∀ (m : FeatureRow → ℚ) (w w2 : ℕ → ℤ) (n : ℕ),
      forecastLoop m w n fr = forecastLoop m w2 n fr) := by
  obtain ⟨hi, _, hhour⟩ := build_features_cases data sid 24 fr hb
  refine ⟨by rw [hhour]; simp, fun wh wh2 => by simp [readHour, hhour],
    fun m w w2 n => forecastLoop_wall_indep m n w w2 fr _ hhour⟩

/-- A default feature row (only used to name the row built from the
concrete witness dataset). -/
def frDefault : FeatureRow where
  lag := fun _ => 0
  rolling_24_mean := 0
  hour := none
  dayofweek := 0
  lat := 0
  lon := 0

/-- A concrete three-hour dataset for one station. -/
def dataEx8 : List Record :=
  [⟨"s1", "delhi", 100, some 40, some 28, some 77⟩,
   ⟨"s1", "delhi", 101, some 42, some 28, some 77⟩,
   ⟨"s1", "delhi", 102, some 44, some 28, some 77⟩]

/-- The feature row built from `dataEx8` for station `s1`. -/
def frEx8 : FeatureRow :=
  (build_features_for_station dataEx8 "s1" 24).getD frDefault

theorem C8_predict_response_witness :
    build_features_for_station dataEx8 "s1" 24 = some frEx8 ∧
    (resolveRoute "/api/predict" = some HandlerId.predictFirst ∧
      ∃ (t : ℕ) (resp : PredictResponseA),
        lastObservation dataEx8 "s1" = some t ∧
        predictFirstHandler true dataEx8 (some mEx) wEx "s1" 3 0 = .ok resp ∧
        resp.station_id = "s1" ∧
        resp.last_updated = t ∧
        resp.predictions.length = 3) :=
  ⟨rfl, C8_predict_response dataEx8 mEx wEx "s1" 3 0 frEx8 rfl⟩

/-- A concrete dataset with three stations in one city. -/
def dataEx9 : List Record :=
  [⟨"s1", "delhi", 100, some 40, some 28, some 77⟩,
   ⟨"s2", "delhi", 100, some 50, some 28, some 77⟩,
   ⟨"s3", "delhi", 100, some 60, some 28, some 77⟩]

/-- A per-station predictor that raises for station `s2` only. -/
def pEx : String → Except String PredictResponseB := fun sid =>
  if sid == "s2" then .error "prediction failed" else .ok ⟨sid, []⟩

def countSuccesses (r : Except HTTPError CityResponse) : ℕ :=
  match r with
  | .ok resp => (resp.stations.filter (fun entry =>
      match entry with
      | .success _ => true
      | .failure _ _ => false)).length
  | .error _ => 0

def countFailures (r : Except HTTPError CityResponse) : ℕ :=
  match r with
  | .ok resp => (resp.stations.filter (fun entry =>
      match entry with
      | .success _ => false
      | .failure _ _ => true)).length
  | .error _ => 0

theorem C9_city_fanout_witness :
    cityMatches dataEx9 "delhi" ≠ [] ∧
    countSuccesses (predict_by_city true dataEx9 pEx "delhi" 0) = 2 ∧
    countFailures (predict_by_city true dataEx9 pEx "delhi" 0) = 1 ∧
    (∃ resp, predict_by_city true dataEx9 pEx "delhi" 0 = .ok resp ∧
      resp.stations.length = (cityStationIds dataEx9 "delhi").length ∧
      ∀ i, i < (cityStationIds dataEx9 "delhi").length →
        ((∃ r, pEx ((cityStationIds dataEx9 "delhi").getD i "") = .ok r ∧
            resp.stations.getD i (.failure "" "") = .success r) ∨
         (∃ e, pEx ((cityStationIds dataEx9 "delhi").getD i "") = .error e ∧
            resp.stations.getD i (.failure "" "") =
              .failure ((cityStationIds dataEx9 "delhi").getD i "") e))) :=
  ⟨by decide, by decide, by decide,
    C9_city_fanout dataEx9 pEx "delhi" 0 (by decide)⟩

theorem C10_hour_read_total_witness :
    build_features_for_station dataEx8 "s1" 24 = some frEx8 ∧
    frEx8.hour ≠ none :=
  ⟨rfl, (C10_hour_read_total dataEx8 "s1" frEx8 rfl).1⟩

end AirQ
